import Mathlib

/-!
Verification of the netcam-aioiosxe reconciliation/verification core.

The Python source is embedded shallowly: dictionaries become association
lists (`List (κ × α)`) with Python's last-assignment-wins lookup, Python
sets become `List String` compared by membership, and the stateful cache
becomes explicit state passing.  Functions keep their source names where
Lean allows it.  The comparison protocol provided by the external `netcad`
library (`CheckResult.measure`) is not part of this repository's sources,
so it is modelled from the spec; those definitions say so in their doc
comments.
-/

namespace NetcamIosxe

/-- The five check-result statuses of the netcad model:
PASS, FAIL, WARN, SKIP, INFO. -/
inductive CheckStatus where
  | pass
  | fail
  | warn
  | skip
  | info
deriving DecidableEq, Repr

/-- A log entry attached to a check result (`result.logs.INFO/WARN/FAIL`).
`ifnames` carries interface-name payloads, `note` free-form text payloads. -/
structure LogEntry where
  level : CheckStatus
  field : String
  ifnames : List String := []
  note : String := ""
deriving DecidableEq, Repr

/-- A netcad check result: an optional measurement (None when the entity is
absent from the device), the resolved status, the per-field resolved
statuses, and the accumulated log entries. -/
structure CheckResult (μ : Type) where
  measurement : Option μ
  status : CheckStatus
  field_results : List (String × CheckStatus) := []
  logs : List LogEntry := []
deriving DecidableEq, Repr

/-- Python `dict` lookup for an int-keyed dict built by successive
assignments: the last assignment for a key wins. -/
def pyDictLookup {α : Type} (d : List (Nat × α)) (k : Nat) : Option α :=
  (d.reverse.find? (fun p => p.1 == k)).map (fun p => p.2)

/-- Python set difference `a - b` on string sets represented as lists
(membership is what matters). -/
def pyDiff (a b : List String) : List String :=
  a.filter (fun x => !b.contains x)

/-- Python set equality on string sets represented as lists. -/
def pySetEqB (a b : List String) : Bool :=
  a.all (fun x => b.contains x) && b.all (fun x => a.contains x)

/-- Python `a & b == b`, i.e. `b ⊆ a`, on string sets represented as
lists. -/
def pySupersetB (a b : List String) : Bool :=
  b.all (fun x => a.contains x)

-- ---------------------------------------------------------------------------
-- C1: the merged VLAN table (iosxe_dut.get_vlans / iosxe_get_vlans)
-- ---------------------------------------------------------------------------

/-- One entry of the spanning-tree operational data
(`Cisco-IOS-XE-spanning-tree-oper:stp-detail`): the STP instance name, for
example "VLAN0010", and the interfaces participating in that instance. -/
structure StpInstance where
  instanceName : String
  interfaces : List String
deriving DecidableEq, Repr

/-- One entry of the VLAN operational data
(`Cisco-IOS-XE-vlan-oper:vlan`): VLAN id, name, status and the
`vlan-interfaces` membership records (reduced to their interface names). -/
structure VlanOperData where
  id : Nat
  name : String
  status : String
  vlanInterfaces : List String
deriving DecidableEq, Repr

/-- A merged per-VLAN record of the VLAN table built by `get_vlans`. -/
structure VlanRecord where
  name : String
  status : String
  interfaces : List String
deriving DecidableEq, Repr

/-- Decimal digit-string parsing over characters (the computable core of
Python `int(...)` on a digit string). -/
def digitsToNat (cs : List Char) : Nat :=
  cs.foldl (fun n c => n * 10 + (c.toNat - 48)) 0

/-- `int(stp_inst["instance"][4:])`: the VLAN id encoded in an STP
instance name such as "VLAN0010" — the digits after the 4-character
"VLAN" prefix. -/
def stpVlanId (s : String) : Nat :=
  digitsToNat (s.data.drop 4)

/-- The `op_vlan_stp_interfaces` defaultdict of `get_vlans`: the loop
assigns `op_vlan_stp_interfaces[vlan_id] = interfaces` for each STP
instance, so the last assignment for a VLAN id wins and a missing key
yields the empty list. -/
def op_vlan_stp_interfaces (stp : List StpInstance) (vlan_id : Nat) : List String :=
  match stp.reverse.find? (fun s => stpVlanId s.instanceName == vlan_id) with
  | some s => s.interfaces
  | none => []

/-- The per-VLAN record built by the second loop of `get_vlans`: the set of
`vlan-interfaces` names updated with the STP interfaces for the same VLAN
id (set union, represented without duplicating names already present). -/
def vlan_record_of (stp : List StpInstance) (vd : VlanOperData) : VlanRecord :=
  { name := vd.name
    status := vd.status
    interfaces :=
      vd.vlanInterfaces ++
        (op_vlan_stp_interfaces stp vd.id).filter
          (fun i => !vd.vlanInterfaces.contains i) }

/-- `IOSXEDeviceUnderTest.get_vlans` / `iosxe_get_vlans`: the merged VLAN
table, keyed by VLAN id, built by iterating the `get-vlans` membership
entries only; the STP data contributes interface names for the VLAN ids
that the membership source lists. -/
def iosxe_get_vlans (stp : List StpInstance) (vlans : List VlanOperData) :
    List (Nat × VlanRecord) :=
  vlans.map (fun vd => (vd.id, vlan_record_of stp vd))

theorem find?_map_vlan_record (stp : List StpInstance)
    (l : List VlanOperData) (v : Nat) :
    ((l.map (fun vd => (vd.id, vlan_record_of stp vd))).find?
        (fun p => p.1 == v)).map (fun p => p.2) =
      (l.find? (fun x => x.id == v)).map (vlan_record_of stp) := by
  induction l with
  | nil => rfl
  | cons hd tl ih =>
      cases hb : (hd.id == v) with
      | true =>
          simp only [List.map_cons, List.find?, hb]
          rfl
      | false =>
          simp only [List.map_cons, List.find?, hb]
          exact ih

theorem pyDictLookup_get_vlans (stp : List StpInstance)
    (vlans : List VlanOperData) (v : Nat) :
    pyDictLookup (iosxe_get_vlans stp vlans) v =
      (vlans.reverse.find? (fun x => x.id == v)).map (vlan_record_of stp) := by
  unfold pyDictLookup iosxe_get_vlans
  rw [← List.map_reverse]
  exact find?_map_vlan_record stp vlans.reverse v

/-- C1 counterexample: VLAN 20 appears in the spanning-tree topology source
(instance "VLAN0020") but not in the membership source, yet the merged VLAN
table built by `get_vlans` has no entry for VLAN 20 — refuting the claim
that a VLAN id present in the topology source but absent from the
membership source is not dropped. -/
theorem iosxe_get_vlans_stp_only_vlan_dropped :
    stpVlanId "VLAN0020" = 20 ∧
    (op_vlan_stp_interfaces [⟨"VLAN0020", ["Gi1/0/2"]⟩] 20 = ["Gi1/0/2"]) ∧
    pyDictLookup (iosxe_get_vlans [⟨"VLAN0020", ["Gi1/0/2"]⟩] []) 20 = none :=
  ⟨by decide, by decide, rfl⟩

/-- C1 (amended): the merged VLAN table has an entry exactly for the VLAN
ids listed by the membership source (`get-vlans`); for each such entry the
interface set is the union of the interface names for that VLAN id across
the membership source and the topology source; a VLAN id present only in
the topology source is dropped (no entry is created for it). -/
theorem iosxe_get_vlans_merge (stp : List StpInstance)
    (vlans : List VlanOperData) (v : Nat) :
    (pyDictLookup (iosxe_get_vlans stp vlans) v = none ↔
      v ∉ vlans.map (fun x => x.id)) ∧
    (∀ vd, vlans.reverse.find? (fun x => x.id == v) = some vd →
      pyDictLookup (iosxe_get_vlans stp vlans) v =
          some (vlan_record_of stp vd) ∧
        ∀ i, i ∈ (vlan_record_of stp vd).interfaces ↔
          i ∈ vd.vlanInterfaces ∨ i ∈ op_vlan_stp_interfaces stp vd.id) := by
  constructor
  · rw [pyDictLookup_get_vlans]
    simp [List.find?_eq_none, beq_iff_eq]
  · intro vd hfind
    refine ⟨by rw [pyDictLookup_get_vlans, hfind]; rfl, ?_⟩
    intro i
    simp only [vlan_record_of, List.mem_append, List.mem_filter,
      Bool.not_eq_true', List.contains, List.elem_eq_mem,
      decide_eq_false_iff_not]
    tauto

/-- C1 witness: the spec's own example — membership source lists VLAN 10
with Gi1/0/1, the topology source lists VLAN 10 with Gi1/0/2; the merged
entry for VLAN 10 exists and its interface set is the union of the two
(specialised at both interface names). -/
theorem iosxe_get_vlans_merge_witness :
    pyDictLookup
        (iosxe_get_vlans [⟨"VLAN0010", ["Gi1/0/2"]⟩]
          [⟨10, "Printers", "active", ["Gi1/0/1"]⟩]) 10 =
      some (vlan_record_of [⟨"VLAN0010", ["Gi1/0/2"]⟩]
        ⟨10, "Printers", "active", ["Gi1/0/1"]⟩) ∧
    ("Gi1/0/1" ∈ (vlan_record_of [⟨"VLAN0010", ["Gi1/0/2"]⟩]
        ⟨10, "Printers", "active", ["Gi1/0/1"]⟩).interfaces ↔
      "Gi1/0/1" ∈ ["Gi1/0/1"] ∨
        "Gi1/0/1" ∈ op_vlan_stp_interfaces [⟨"VLAN0010", ["Gi1/0/2"]⟩] 10) ∧
    ("Gi1/0/2" ∈ (vlan_record_of [⟨"VLAN0010", ["Gi1/0/2"]⟩]
        ⟨10, "Printers", "active", ["Gi1/0/1"]⟩).interfaces ↔
      "Gi1/0/2" ∈ ["Gi1/0/1"] ∨
        "Gi1/0/2" ∈ op_vlan_stp_interfaces [⟨"VLAN0010", ["Gi1/0/2"]⟩] 10) :=
  have h := (iosxe_get_vlans_merge [⟨"VLAN0010", ["Gi1/0/2"]⟩]
    [⟨10, "Printers", "active", ["Gi1/0/1"]⟩] 10).2
    ⟨10, "Printers", "active", ["Gi1/0/1"]⟩ (by decide)
  ⟨h.1, h.2 "Gi1/0/1", h.2 "Gi1/0/2"⟩

-- ---------------------------------------------------------------------------
-- C4: the deduplicating response cache (IOSXEDeviceUnderTest.api_cache_get)
-- ---------------------------------------------------------------------------

/-- A decoded RESTCONF response body (`res.json()`), modelled as a flat
JSON object of key/value pairs. -/
abbrev ApiData := List (String × String)

/-- Python truthiness of a decoded body: the empty dict is falsy. -/
def pyTruthy (d : ApiData) : Bool :=
  !d.isEmpty

/-- Python truthiness of `dict.get(key)`: `None` (absent key) and the
empty dict are falsy. -/
def pyTruthyOpt : Option ApiData → Bool
  | none => false
  | some d => pyTruthy d

/-- Python `dict` lookup for a string-keyed dict built by successive
assignments: the last assignment for a key wins. -/
def strDictLookup {α : Type} (d : List (String × α)) (k : String) : Option α :=
  (d.reverse.find? (fun p => p.1 == k)).map (fun p => p.2)

/-- The mutable state owned by one DUT session that `api_cache_get`
touches: the `_api_cache` dict and (for the at-most-once property) a count
of transport invocations performed so far. -/
structure CacheState where
  api_cache : List (String × ApiData)
  fetchCount : Nat
deriving DecidableEq, Repr

/-- `IOSXEDeviceUnderTest.api_cache_get`: under the cache lock, look the
key up; if the looked-up value is falsy (absent key — or an empty cached
body, since the code tests `if not has_data`), fetch through the transport,
store the decoded body under the key, and return it; otherwise return the
cached body.  The `asyncio.Lock` makes the whole body one critical
section, so it is modelled as an atomic state transition. -/
def api_cache_get (transport : String → ApiData) (key : String)
    (st : CacheState) : ApiData × CacheState :=
  let has_data := strDictLookup st.api_cache key
  if pyTruthyOpt has_data then
    (has_data.getD [], st)
  else
    let res := transport key
    (res, ⟨st.api_cache ++ [(key, res)], st.fetchCount + 1⟩)

/-- `n` callers of `api_cache_get` for the same key: the lock serialises
them, so concurrent callers execute as some sequential order of the `n`
atomic critical sections. -/
def api_cache_runs (transport : String → ApiData) (key : String) :
    Nat → CacheState → List ApiData × CacheState
  | 0, st => ([], st)
  | n + 1, st =>
      let r1 := api_cache_get transport key st
      let rs := api_cache_runs transport key n r1.2
      (r1.1 :: rs.1, rs.2)

/-- C4 counterexample: the cache presence test is a truthiness test
(`if not has_data`), so a key whose decoded response body is the empty
dict is re-fetched by every caller: two calls for the same key perform two
transport invocations, refuting the at-most-once-per-key-per-run claim. -/
theorem api_cache_get_refetches_falsy_body :
    (api_cache_runs (fun _ => []) "get-stp" 2 ⟨[], 0⟩).2.fetchCount = 2 :=
  rfl

theorem api_cache_runs_cached (t : String → ApiData) (key : String)
    (v : ApiData) (m : Nat) :
    ∀ st : CacheState, strDictLookup st.api_cache key = some v →
      pyTruthy v = true →
      api_cache_runs t key m st = (List.replicate m v, st) := by
  induction m with
  | zero => intro st _ _; rfl
  | succ k ih =>
      intro st h ht
      have hget : api_cache_get t key st = (v, st) := by
        unfold api_cache_get
        rw [h]
        simp [pyTruthyOpt, ht]
      unfold api_cache_runs
      rw [hget]
      simp only
      rw [ih st h ht]
      rfl

/-- C4 (amended): provided the decoded response body for the key is truthy
(non-empty), the at-most-once-per-key-per-run guarantee holds: starting
from an empty cache, `n ≥ 1` lock-serialised callers of `api_cache_get`
for the same key perform exactly one transport invocation, and every
caller receives the identical stored value.  (For a falsy body the value
is re-fetched on every call — see the counterexample.) -/
theorem api_cache_get_at_most_once (t : String → ApiData) (key : String)
    (n : Nat) (ht : pyTruthy (t key) = true) (hn : 1 ≤ n) :
    (api_cache_runs t key n ⟨[], 0⟩).1 = List.replicate n (t key) ∧
    (api_cache_runs t key n ⟨[], 0⟩).2.fetchCount = 1 := by
  obtain ⟨m, rfl⟩ : ∃ m, n = m + 1 := ⟨n - 1, by omega⟩
  have hget : api_cache_get t key ⟨[], 0⟩ =
      (t key, ⟨[(key, t key)], 1⟩) := by
    unfold api_cache_get
    simp [strDictLookup, pyTruthyOpt]
  have hlook : strDictLookup (CacheState.mk [(key, t key)] 1).api_cache key =
      some (t key) := by
    simp [strDictLookup]
  have hrest := api_cache_runs_cached t key (t key) m
    ⟨[(key, t key)], 1⟩ hlook ht
  unfold api_cache_runs
  rw [hget]
  simp only
  rw [hrest]
  exact ⟨rfl, rfl⟩

/-- C4 witness: three callers for key "interfaces" against a transport
returning a non-empty body — one transport invocation, identical values. -/
theorem api_cache_get_at_most_once_witness :
    (api_cache_runs (fun _ => [("a", "1")]) "interfaces" 3 ⟨[], 0⟩).1 =
        List.replicate 3 [("a", "1")] ∧
      (api_cache_runs (fun _ => [("a", "1")]) "interfaces" 3 ⟨[], 0⟩).2.fetchCount = 1 :=
  api_cache_get_at_most_once (fun _ => [("a", "1")]) "interfaces" 3
    (by decide) (by decide)

-- ---------------------------------------------------------------------------
-- The expected-vs-measured comparison protocol (netcad CheckResult.measure)
-- ---------------------------------------------------------------------------

/-- Modelled from the spec: the netcad library's per-field comparison —
each field present in both the expected and the measured object compares
by exact equality (PASS on match); on a mismatch the check kind's
`on_mismatch` override is consulted, FAIL being the default when the
override declines.  `defaults` lists each field name with the outcome of
its default equality test. -/
def measureFields (on_mismatch : String → Option CheckStatus)
    (defaults : List (String × Bool)) : List (String × CheckStatus) :=
  defaults.map (fun p =>
    (p.1, if p.2 then CheckStatus.pass else (on_mismatch p.1).getD CheckStatus.fail))

/-- Modelled from the spec: the netcad library's overall result status —
a pre-set status (the reserved-entity INFO short-circuit) is kept; a
missing measurement resolves to the non-matching status FAIL; otherwise
the result is FAIL iff some field resolved FAIL, else PASS. -/
def overallStatus (preset : Option CheckStatus) (measurementPresent : Bool)
    (frs : List (String × CheckStatus)) : CheckStatus :=
  match preset with
  | some s => s
  | none =>
      if measurementPresent then
        if frs.any (fun p => p.2 == CheckStatus.fail) then CheckStatus.fail
        else CheckStatus.pass
      else CheckStatus.fail

-- ---------------------------------------------------------------------------
-- C2: SVI collateral-down reclassification (_check_vlan_assoc_interface)
-- ---------------------------------------------------------------------------

/-- One row of `dut.device_info["interfaces"]`: the design's view of a
device interface — its admin-enabled flag and profile flags. -/
structure DutInterface where
  enabled : Bool
  profile_flags : List String
deriving DecidableEq, Repr

/-- A Python value that is either a set of strings or a list of strings.
`_check_vlan_assoc_interface` compares a set against a list with `==`. -/
inductive PyStrColl where
  | pyset (elems : List String)
  | pylist (elems : List String)
deriving DecidableEq, Repr

/-- Python `==` on such values: two sets compare by set equality, two
lists element-wise in order; a set and a list are never equal. -/
def pyCollEq : PyStrColl → PyStrColl → Bool
  | .pyset a, .pyset b => pySetEqB a b
  | .pylist a, .pylist b => a == b
  | _, _ => false

/-- The `disrd_ifnames` set of `_check_vlan_assoc_interface`: the VLAN's
configured interfaces that are administratively disabled or carry the
`is_reserved` profile flag. -/
def disrd_ifnames (dut_ifs : String → DutInterface)
    (vlan_cfgd_ifnames : List String) : List String :=
  vlan_cfgd_ifnames.filter (fun n =>
    (dut_ifs n).enabled == false || (dut_ifs n).profile_flags.contains "is_reserved")

/-- The measurement object of an IP-interface check result. -/
structure IpMeasurement where
  if_ipaddr : String := ""
  oper_up : Bool := false
deriving DecidableEq, Repr

/-- The expected-results object of an IP-interface check. -/
structure IpExpected where
  if_ipaddr : String
  oper_up : Bool := true
deriving DecidableEq, Repr

/-- Default per-field equality outcomes for an IP-interface result. -/
def ip_field_defaults (expd : IpExpected) (msrd : IpMeasurement) :
    List (String × Bool) :=
  [("if_ipaddr", expd.if_ipaddr == msrd.if_ipaddr),
   ("oper_up", expd.oper_up == msrd.oper_up)]

/-- `_check_vlan_assoc_interface`: builds the set of disabled-or-reserved
member interfaces of the SVI's VLAN, and — only when that set compares
equal (Python `==`) to the *list* of configured member names — appends the
reclassified result with an INFO log and an `on_mismatch` override that
returns PASS for `oper_up` and FAIL for every other field.  Otherwise the
function appends nothing.  Inputs that the Python code reads from the
device are parameters: the design interface table and the VLAN's STP
member interface names. -/
def _check_vlan_assoc_interface (dut_ifs : String → DutInterface)
    (vlan_cfgd_ifnames : List String) (expd : IpExpected)
    (msrd : IpMeasurement) (priorLogs : List LogEntry) :
    List (CheckResult IpMeasurement) :=
  let disrd := disrd_ifnames dut_ifs vlan_cfgd_ifnames
  if pyCollEq (.pyset disrd) (.pylist vlan_cfgd_ifnames) then
    let logs := priorLogs ++
      [⟨CheckStatus.info, "oper_up", vlan_cfgd_ifnames,
        "interfaces are either disabled or in reserved state"⟩]
    let on_mismatch := fun f =>
      if f == "oper_up" then some CheckStatus.pass else some CheckStatus.fail
    let frs := measureFields on_mismatch (ip_field_defaults expd msrd)
    [{ measurement := some msrd
       status := overallStatus none true frs
       field_results := frs
       logs := logs }]
  else
    []

/-- Auxiliary: the reclassification branch is unreachable —
`disrd_ifnames` is a Python set and `vlan_cfgd_ifnames` a Python list, and
a set never compares equal to a list, so for every input
`_check_vlan_assoc_interface` emits no result at all. -/
theorem _check_vlan_assoc_interface_never_emits
    (dut_ifs : String → DutInterface) (vlan_cfgd_ifnames : List String)
    (expd : IpExpected) (msrd : IpMeasurement) (priorLogs : List LogEntry) :
    _check_vlan_assoc_interface dut_ifs vlan_cfgd_ifnames expd msrd priorLogs
      = [] :=
  rfl

/-- C2, evaluated at the failing input: SVI Vlan20 enabled but measured
down, its single VLAN member Gi1/0/1 administratively disabled — every
member is disabled or reserved, yet no result is emitted, where the claim
(and the function's own docstring) requires a PASS result with an INFO
log; and with the member enabled no FAIL result is emitted either.  The
cause: the code compares the set `disrd_ifnames` against the *list*
`vlan_cfgd_ifnames`, which in Python is never equal, so the
reclassification branch can never run — the code, not the claim, is at
fault. -/
theorem _check_vlan_assoc_interface_failing_input :
    disrd_ifnames (fun _ => ⟨false, []⟩) ["Gi1/0/1"] = ["Gi1/0/1"] ∧
    _check_vlan_assoc_interface (fun _ => ⟨false, []⟩) ["Gi1/0/1"]
        ⟨"10.0.20.1/24", true⟩ ⟨"10.0.20.1/24", false⟩ [] = [] ∧
    _check_vlan_assoc_interface (fun _ => ⟨true, []⟩) ["Gi1/0/1"]
        ⟨"10.0.20.1/24", true⟩ ⟨"10.0.20.1/24", false⟩ [] = [] :=
  ⟨by decide, rfl, rfl⟩

-- ---------------------------------------------------------------------------
-- C7 / C9: the interfaces check executor (iosxe_check_interfaces)
-- ---------------------------------------------------------------------------

/-- The fields of one raw RESTCONF interface record that
`iosxe_check_one_interface` reads: admin state, oper state, description
and speed in bits/sec. -/
structure IfaceOper where
  admin_status : String
  oper_status : String
  description : String
  speed : Nat
deriving DecidableEq, Repr

/-- The netcad interface-check measurement object; `speed` is in Mbit/s
(a Python float, embedded as an exact rational). -/
structure InterfaceCheckMeasurement where
  used : Bool
  oper_up : Bool
  desc : String
  speed : ℚ
deriving DecidableEq, Repr

/-- The expected-results object of an interface check (same field set as
the measurement). -/
structure InterfaceExpected where
  used : Bool
  oper_up : Bool
  desc : String
  speed : ℚ
deriving DecidableEq, Repr

/-- `BITS_TO_MBS = 10 ** -6`. -/
def BITS_TO_MBS : ℚ := 1 / 1000000

/-- `IOSXEInterfaceMeasurement.from_cli`: admin state other than
"if-state-down" means used; oper state "if-oper-state-ready" means up;
speed is converted from bits/sec to Mbit/s. -/
def IOSXEInterfaceMeasurement.from_cli (p : IfaceOper) : InterfaceCheckMeasurement :=
  { used := p.admin_status != "if-state-down"
    oper_up := p.oper_status == "if-oper-state-ready"
    desc := p.description
    speed := (p.speed : ℚ) * BITS_TO_MBS }

/-- Default per-field equality outcomes for an interface check result. -/
def interface_field_defaults (expd : InterfaceExpected)
    (m : InterfaceCheckMeasurement) : List (String × Bool) :=
  [("used", expd.used == m.used),
   ("oper_up", expd.oper_up == m.oper_up),
   ("desc", expd.desc == m.desc),
   ("speed", decide (expd.speed = m.speed))]

/-- `iosxe_check_one_interface`: missing interface ⇒ a single result with
measurement None; reserved interface ⇒ a single INFO result with an INFO
log; expected-unused interface ⇒ compare only the `used` field; otherwise
compare all fields with the `on_mismatch` override (description mismatch
⇒ WARN, speed mismatch while the measured port is oper-down ⇒ SKIP). -/
def iosxe_check_one_interface (expd : InterfaceExpected) (is_reserved : Bool)
    (iface_oper_status : Option IfaceOper) :
    List (CheckResult InterfaceCheckMeasurement) :=
  match iface_oper_status with
  | none =>
      [{ measurement := none
         status := overallStatus none false []
         field_results := []
         logs := [] }]
  | some p =>
      let measurement := IOSXEInterfaceMeasurement.from_cli p
      if is_reserved then
        let frs := measureFields (fun _ => none)
          (interface_field_defaults expd measurement)
        [{ measurement := some measurement
           status := overallStatus (some CheckStatus.info) true frs
           field_results := frs
           logs := [⟨CheckStatus.info, "reserved", [], ""⟩] }]
      else if expd.used == false then
        -- only the `used` field has been copied into the result's
        -- measurement when the executor returns early
        let frs := measureFields (fun _ => none)
          [("used", expd.used == measurement.used)]
        [{ measurement := some ⟨measurement.used, false, "", 0⟩
           status := overallStatus none true frs
           field_results := frs
           logs := [] }]
      else
        let on_mismatch := fun f =>
          if f == "desc" then some CheckStatus.warn
          else if f == "speed" && measurement.oper_up == false then
            some CheckStatus.skip
          else none
        let frs := measureFields on_mismatch
          (interface_field_defaults expd measurement)
        [{ measurement := some measurement
           status := overallStatus none true frs
           field_results := frs
           logs := [] }]

/-- Helper: the Mbit/s value of a 1 Gbit/s measured speed. -/
theorem speed_1g_mbs : (1000000000 : ℚ) * BITS_TO_MBS = 1000 := by
  norm_num [BITS_TO_MBS]

/-- C7: for an interface present in the table, not reserved and expected
to be used, a speed mismatch resolves the `speed` field to SKIP whenever
the measured interface is oper-down — regardless of the values involved —
and to FAIL whenever it is oper-up.  (The executor emits exactly one
result; its field results carry the resolved speed status.) -/
theorem iosxe_check_one_interface_speed_override (expd : InterfaceExpected)
    (p : IfaceOper) (hused : expd.used = true)
    (hmis : expd.speed ≠ (IOSXEInterfaceMeasurement.from_cli p).speed) :
    (iosxe_check_one_interface expd false (some p)).length = 1 ∧
    (iosxe_check_one_interface expd false (some p)).all
      (fun r => r.field_results.contains
        ("speed",
          if (IOSXEInterfaceMeasurement.from_cli p).oper_up then CheckStatus.fail
          else CheckStatus.skip)) = true := by
  have h1 : (expd.used == false) = false := by simp [hused]
  have h2 : decide (expd.speed = (IOSXEInterfaceMeasurement.from_cli p).speed)
      = false := by simp [hmis]
  constructor
  · simp [iosxe_check_one_interface, h1]
  · simp only [iosxe_check_one_interface, h1, Bool.false_eq_true, if_false,
      measureFields, interface_field_defaults, List.map_cons, List.map_nil,
      h2, List.all_cons, List.all_nil, Bool.and_true]
    cases hop : (IOSXEInterfaceMeasurement.from_cli p).oper_up with
    | true => simp [hop, List.contains]
    | false => simp [hop, List.contains]

/-- C7 witness: a 10 Gbit/s (10000 Mbit/s) expectation against a measured
1 Gbit/s port — SKIP on an oper-down port, FAIL on an oper-up port (two
applications of the theorem at concrete inputs, one per polarity). -/
theorem iosxe_check_one_interface_speed_override_witness :
    (iosxe_check_one_interface ⟨true, true, "d", 10000⟩ false
        (some ⟨"if-state-up", "if-oper-state-invalid", "d", 1000000000⟩)).all
      (fun r => r.field_results.contains ("speed", CheckStatus.skip)) = true ∧
    (iosxe_check_one_interface ⟨true, true, "d", 10000⟩ false
        (some ⟨"if-state-up", "if-oper-state-ready", "d", 1000000000⟩)).all
      (fun r => r.field_results.contains ("speed", CheckStatus.fail)) = true := by
  constructor
  · have h := (iosxe_check_one_interface_speed_override
      ⟨true, true, "d", 10000⟩
      ⟨"if-state-up", "if-oper-state-invalid", "d", 1000000000⟩
      rfl (by simp [IOSXEInterfaceMeasurement.from_cli, speed_1g_mbs])).2
    simpa using h
  · have h := (iosxe_check_one_interface_speed_override
      ⟨true, true, "d", 10000⟩
      ⟨"if-state-up", "if-oper-state-ready", "d", 1000000000⟩
      rfl (by simp [IOSXEInterfaceMeasurement.from_cli, speed_1g_mbs])).2
    simpa using h

-- ---------------------------------------------------------------------------
-- C5: the IP-address check executor (iosxe_test_one_interface)
-- ---------------------------------------------------------------------------

/-- Decimal digit characters of a natural number (executable rendering of
Python string interpolation of an int; 8 digits of fuel suffice for every
value the source renders). -/
def natDigitsAux : Nat → Nat → List Char
  | 0, _ => []
  | fuel + 1, n =>
      if n < 10 then [Char.ofNat (48 + n)]
      else natDigitsAux fuel (n / 10) ++ [Char.ofNat (48 + n % 10)]

/-- `str(n)` for the naturals the source renders. -/
def natToStr (n : Nat) : String :=
  String.mk (natDigitsAux 8 n)

/-- The number of set bits in one dotted-quad octet. -/
def popBits (n : Nat) : Nat :=
  ((List.range 8).filter (fun i => n.testBit i)).length

/-- Split a character list on the '.' separator (the dotted-quad parser's
core). -/
def splitOnDot (cs : List Char) : List (List Char) :=
  cs.foldr
    (fun c acc =>
      if c == '.' then [] :: acc
      else
        match acc with
        | [] => [[c]]
        | g :: gs => (c :: g) :: gs)
    [[]]

/-- The prefix length of a dotted-quad IPv4 netmask, as
`ipaddress.IPv4Interface` computes it for valid masks: the number of set
bits across the four octets. -/
def ipv4_prefixlen (mask : String) : Nat :=
  ((splitOnDot mask.data).map digitsToNat).foldl (fun acc o => acc + popBits o) 0

/-- `str(ipaddress.IPv4Interface((addr, mask)))`: the
"<ipaddr>/<prefixlen>" rendering used for the measured `if_ipaddr`. -/
def ipv4_interface_str (addr mask : String) : String :=
  addr ++ "/" ++ natToStr (ipv4_prefixlen mask)

/-- `if_name.startswith("Vlan")`. -/
def startsWithVlan (s : String) : Bool :=
  ['V', 'l', 'a', 'n'].isPrefixOf s.data

/-- The fields of one raw RESTCONF interface record that
`iosxe_test_one_interface` reads. -/
structure IpIfOperData where
  ipv4 : String
  ipv4_subnet_mask : String
  oper_status : String
deriving DecidableEq, Repr

/-- `iosxe_test_one_interface`: sentinel address 0.0.0.0 ⇒ a single
result with measurement None; an expected value `"is_reserved"` sets the
status to INFO and appends the result — but does not return, so execution
continues and appends the result a second time (or, for an enabled,
oper-down SVI, falls into `_check_vlan_assoc_interface`).  External reads
are parameters: the design interface table (for `enabled`) and the SVI's
VLAN member names. -/
def iosxe_test_one_interface (dut_ifs : String → DutInterface)
    (vlan_cfgd_ifnames : List String) (if_name : String) (expd : IpExpected)
    (msrd_data : IpIfOperData) : List (CheckResult IpMeasurement) :=
  if msrd_data.ipv4 == "0.0.0.0" then
    [⟨none, overallStatus none false [], [], []⟩]
  else
    let if_ipaddr := ipv4_interface_str msrd_data.ipv4 msrd_data.ipv4_subnet_mask
    let is_rsvd := expd.if_ipaddr == "is_reserved"
    -- the measurement at the time of the reserved append has only
    -- `if_ipaddr` assigned (oper_up is assigned later in the executor)
    let reserved_results :=
      if is_rsvd then
        let frs0 := measureFields (fun _ => none)
          (ip_field_defaults expd ⟨if_ipaddr, false⟩)
        [⟨some ⟨if_ipaddr, false⟩, overallStatus (some CheckStatus.info) true frs0,
          frs0, []⟩]
      else []
    let iface_enabled := (dut_ifs if_name).enabled
    let oper_up := msrd_data.oper_status == "if-oper-state-ready"
    let msrd : IpMeasurement := ⟨if_ipaddr, oper_up⟩
    let preset := if is_rsvd then some CheckStatus.info else none
    if iface_enabled && !oper_up then
      if startsWithVlan if_name then
        reserved_results ++
          _check_vlan_assoc_interface dut_ifs vlan_cfgd_ifnames expd msrd []
      else
        let frs := measureFields (fun _ => none) (ip_field_defaults expd msrd)
        reserved_results ++ [⟨some msrd, overallStatus preset true frs, frs, []⟩]
    else
      let frs := measureFields (fun _ => none) (ip_field_defaults expd msrd)
      reserved_results ++ [⟨some msrd, overallStatus preset true frs, frs, []⟩]

/-- C5: the reserved short-circuit is violated by the IP-address
executor — for a reserved (expected value `"is_reserved"`) enabled,
oper-up interface it emits TWO results for the one entity (the reserved
branch appends without returning, and the tail of the executor appends
again), refuting "exactly one result"; both carry status INFO.  The
interfaces and transceiver executors return after their reserved append;
the missing `return` here contradicts the adjacent comment ("this check
will only record the value as an INFO check result"). -/
theorem iosxe_test_one_interface_reserved_double_emit :
    (iosxe_test_one_interface (fun _ => ⟨true, []⟩) [] "GigabitEthernet1/0/5"
        ⟨"is_reserved", true⟩ ⟨"10.1.1.5", "255.255.255.0", "if-oper-state-ready"⟩).length
      = 2 ∧
    (iosxe_test_one_interface (fun _ => ⟨true, []⟩) [] "GigabitEthernet1/0/5"
        ⟨"is_reserved", true⟩ ⟨"10.1.1.5", "255.255.255.0", "if-oper-state-ready"⟩).map
      (fun r => r.status) = [CheckStatus.info, CheckStatus.info] := by
  constructor
  · rfl
  · decide

-- ---------------------------------------------------------------------------
-- C6 / C8: the per-VLAN check (iosxe_check_one_vlan)
-- ---------------------------------------------------------------------------

/-- The expected-results object of a VLAN check. -/
structure VlanCheckExpected where
  name : String
  oper_up : Bool
  interfaces : List String
deriving DecidableEq, Repr

/-- The measurement object of a VLAN check (same field set). -/
structure VlanCheckMeasured where
  name : String
  oper_up : Bool
  interfaces : List String
deriving DecidableEq, Repr

/-- `iosxe_check_one_vlan`: builds the measurement (status "active" ⇒
oper_up), logs missing/extra member interfaces — only under exclusive
mode — before measuring, and measures with the `on_mismatch` override:
`name` resolves PASS when the expected name is unset, and PASS plus a
WARN log when it is set; `interfaces` resolves PASS on set equality under
exclusive mode and on measured ⊇ expected under non-exclusive mode.  The
measured interface collection is a Python set while the expected one is a
list, so their default `==` comparison is always False and the override
always decides the field. -/
def iosxe_check_one_vlan (exclusive : Bool) (expd : VlanCheckExpected)
    (vlan_status : VlanRecord) : CheckResult VlanCheckMeasured :=
  let msrd : VlanCheckMeasured :=
    ⟨vlan_status.name, vlan_status.status == "active", vlan_status.interfaces⟩
  let missing_interfaces := pyDiff expd.interfaces msrd.interfaces
  let extra_interfaces := pyDiff msrd.interfaces expd.interfaces
  let preLogs :=
    if exclusive then
      (if !missing_interfaces.isEmpty then
        [⟨CheckStatus.fail, "interfaces", missing_interfaces, "missing"⟩] else []) ++
      (if !extra_interfaces.isEmpty then
        [⟨CheckStatus.fail, "interfaces", extra_interfaces, "extra"⟩] else [])
    else []
  let name_matches := expd.name == msrd.name
  let name_warn_logs :=
    if !name_matches && expd.name != "" then
      [⟨CheckStatus.warn, "name", [], msrd.name⟩]
    else []
  let on_mismatch := fun f =>
    if f == "name" then some CheckStatus.pass
    else if f == "interfaces" then
      if exclusive then
        if pySetEqB msrd.interfaces expd.interfaces then some CheckStatus.pass
        else none
      else
        if pySupersetB msrd.interfaces expd.interfaces then some CheckStatus.pass
        else none
    else none
  let defaults :=
    [("name", name_matches),
     ("oper_up", expd.oper_up == msrd.oper_up),
     ("interfaces", pyCollEq (.pylist expd.interfaces) (.pyset msrd.interfaces))]
  let frs := measureFields on_mismatch defaults
  ⟨some msrd, overallStatus none true frs, frs, preLogs ++ name_warn_logs⟩

/-- C6 counterexample: the expected VLAN name is unset ("") and the
measured name is "foo" — the name field resolves PASS but NO log entry at
all is recorded, refuting the claimed WARN-level log entry (the WARN log
is emitted only when a *set* expected name mismatches). -/
theorem iosxe_check_one_vlan_unset_name_no_log :
    (iosxe_check_one_vlan false ⟨"", true, []⟩ ⟨"foo", "active", []⟩).logs = [] ∧
    (iosxe_check_one_vlan false ⟨"", true, []⟩
        ⟨"foo", "active", []⟩).field_results.lookup "name" =
      some CheckStatus.pass := by
  decide

/-- C6 (amended): on a VLAN-name mismatch the name field always resolves
PASS; when the expected name is unset/empty no log entry is recorded for
the field, and when the expected name is set a WARN-level log entry
carrying the measured name is recorded (name-checking is opt-in per
VLAN). -/
theorem iosxe_check_one_vlan_name_optin (exclusive : Bool)
    (expd : VlanCheckExpected) (vs : VlanRecord)
    (hmis : expd.name ≠ vs.name) :
    ((iosxe_check_one_vlan exclusive expd vs).field_results.lookup "name" =
      some CheckStatus.pass) ∧
    ((iosxe_check_one_vlan exclusive expd vs).logs.filter
        (fun e => e.field == "name") =
      if expd.name = "" then [] else [⟨CheckStatus.warn, "name", [], vs.name⟩]) := by
  have hm : (expd.name == vs.name) = false := by simp [hmis]
  constructor
  · simp [iosxe_check_one_vlan, measureFields, List.lookup, hm]
  · simp only [iosxe_check_one_vlan, List.filter_append]
    have hpre : ∀ (c1 c2 : Bool) (l1 l2 : List String),
        List.filter (fun e => e.field == "name")
          ((if exclusive then
              (if c1 then [⟨CheckStatus.fail, "interfaces", l1, "missing"⟩] else []) ++
              (if c2 then [⟨CheckStatus.fail, "interfaces", l2, "extra"⟩] else [])
            else []) : List LogEntry) = [] := by
      intro c1 c2 l1 l2
      cases exclusive <;> cases c1 <;> cases c2 <;> rfl
    rw [hpre]
    rw [hm]
    by_cases hn : expd.name = ""
    · simp [hn]
    · have hn2 : (expd.name != "") = true := by simp [hn]
      simp [hn2, hn]

/-- C6 witness: expected name "Printers" against measured name "Video" —
PASS with a WARN log; and (via the amended clause) unset expected name
against "foo" — PASS with no name log. -/
theorem iosxe_check_one_vlan_name_optin_witness :
    ((iosxe_check_one_vlan true ⟨"Printers", true, []⟩
        ⟨"Video", "active", []⟩).field_results.lookup "name" =
      some CheckStatus.pass) ∧
    ((iosxe_check_one_vlan true ⟨"Printers", true, []⟩
        ⟨"Video", "active", []⟩).logs.filter (fun e => e.field == "name") =
      [⟨CheckStatus.warn, "name", [], "Video"⟩]) := by
  have h := iosxe_check_one_vlan_name_optin true ⟨"Printers", true, []⟩
    ⟨"Video", "active", []⟩ (by decide)
  simpa using h

/-- C8 counterexample: under NON-exclusive mode a membership mismatch
(expected member Gi1 missing from the measured set) resolves FAIL but
records NO missing/extra log entries — the logging happens only under
exclusive-list mode, refuting the claim's unconditional "on a mismatch
the missing and extra interface lists are logged". -/
theorem iosxe_check_one_vlan_nonexclusive_no_logs :
    (iosxe_check_one_vlan false ⟨"v", true, ["Gi1"]⟩ ⟨"v", "active", []⟩).logs
      = [] ∧
    (iosxe_check_one_vlan false ⟨"v", true, ["Gi1"]⟩
        ⟨"v", "active", []⟩).field_results.lookup "interfaces" =
      some CheckStatus.fail := by
  decide

/-- C8 (amended): the interface-membership field resolves PASS iff the
measured set equals the expected set under exclusive-list mode, and iff
the measured set is a superset of the expected set under non-exclusive
mode; under exclusive mode — and only there — the missing
(expected − measured) and extra (measured − expected) interface lists are
logged before the status is decided, each exactly when non-empty. -/
theorem iosxe_check_one_vlan_interfaces_membership (exclusive : Bool)
    (expd : VlanCheckExpected) (vs : VlanRecord) :
    ((iosxe_check_one_vlan exclusive expd vs).field_results.lookup "interfaces" =
      some (if exclusive then
              if pySetEqB vs.interfaces expd.interfaces then CheckStatus.pass
              else CheckStatus.fail
            else
              if pySupersetB vs.interfaces expd.interfaces then CheckStatus.pass
              else CheckStatus.fail)) ∧
    ((iosxe_check_one_vlan exclusive expd vs).logs.filter
        (fun e => e.field == "interfaces") =
      if exclusive then
        (if !(pyDiff expd.interfaces vs.interfaces).isEmpty then
          [⟨CheckStatus.fail, "interfaces",
            pyDiff expd.interfaces vs.interfaces, "missing"⟩] else []) ++
        (if !(pyDiff vs.interfaces expd.interfaces).isEmpty then
          [⟨CheckStatus.fail, "interfaces",
            pyDiff vs.interfaces expd.interfaces, "extra"⟩] else [])
      else []) := by
  constructor
  · cases exclusive <;>
      cases h1 : pySetEqB vs.interfaces expd.interfaces <;>
      cases h2 : pySupersetB vs.interfaces expd.interfaces <;>
      simp [iosxe_check_one_vlan, measureFields, List.lookup, pyCollEq, h1, h2]
  · cases exclusive <;>
      cases hb : (!(expd.name == vs.name) && expd.name != "") <;>
      cases h1 : (pyDiff expd.interfaces vs.interfaces).isEmpty <;>
      cases h2 : (pyDiff vs.interfaces expd.interfaces).isEmpty <;>
      simp [iosxe_check_one_vlan, hb, h1, h2]

-- ---------------------------------------------------------------------------
-- C9: missing entities (interfaces, VLANs, transceivers)
-- ---------------------------------------------------------------------------

/-- The per-check step of the `iosxe_check_vlans` executor: look the VLAN
id up in the merged table; when missing, emit the measurement-None result
and move on; when present, add the SVI name `Vlan<id>` to the member set
if the device reports that interface (set add: no duplicate), then run
`iosxe_check_one_vlan`. -/
def iosxe_check_vlans_one (op_vlan_table : List (Nat × VlanRecord))
    (svi_present : Bool) (exclusive : Bool) (expd : VlanCheckExpected)
    (vlan_id : Nat) : List (CheckResult VlanCheckMeasured) :=
  match pyDictLookup op_vlan_table vlan_id with
  | none => [⟨none, overallStatus none false [], [], []⟩]
  | some vlan_status =>
      let if_name := "Vlan" ++ natToStr vlan_id
      let vlan_status2 :=
        if svi_present && !vlan_status.interfaces.contains if_name then
          { vlan_status with interfaces := vlan_status.interfaces ++ [if_name] }
        else vlan_status
      [iosxe_check_one_vlan exclusive expd vlan_status2]

/-- The raw RESTCONF transceiver record fields that
`eos_test_one_interface` reads. -/
structure XcvrOper where
  vendor_part : String
  ethernet_pmd : String
deriving DecidableEq, Repr

/-- The expected-results object of a transceiver check. -/
structure XcvrExpected where
  model : String
  type : String
deriving DecidableEq, Repr

/-- The measurement object of a transceiver check. -/
structure XcvrMeasured where
  model : String
  type : String
deriving DecidableEq, Repr

/-- `eos_test_one_interface` (transceivers executor): no transceiver
present ⇒ a single measurement-None result; otherwise compare model/type
with the type-aware matcher functions (external netcad comparators,
passed as parameters). -/
def eos_test_one_interface (model_matches type_matches : String → String → Bool)
    (expd : XcvrExpected) (if_xcvr : Option XcvrOper) :
    List (CheckResult XcvrMeasured) :=
  match if_xcvr with
  | none => [⟨none, overallStatus none false [], [], []⟩]
  | some x =>
      let msrd : XcvrMeasured := ⟨x.vendor_part, x.ethernet_pmd⟩
      let on_mismatch := fun f =>
        if f == "model" then
          some (if model_matches expd.model msrd.model then CheckStatus.pass
                else CheckStatus.fail)
        else if f == "type" then
          some (if type_matches expd.type msrd.type then CheckStatus.pass
                else CheckStatus.fail)
        else some CheckStatus.fail
      let defaults :=
        [("model", expd.model == msrd.model), ("type", expd.type == msrd.type)]
      let frs := measureFields on_mismatch defaults
      [⟨some msrd, overallStatus none true frs, frs, []⟩]

/-- C9: in all three check kinds, an entity key absent from the canonical
table yields exactly one result whose measurement is None, whose status is
the non-matching FAIL, and whose per-field comparison list is empty (no
field comparison is performed). -/
theorem missing_entity_resolves_unmatched :
    (∀ (expd : InterfaceExpected) (rsv : Bool),
      iosxe_check_one_interface expd rsv none =
        [⟨none, CheckStatus.fail, [], []⟩]) ∧
    (∀ (table : List (Nat × VlanRecord)) (svi excl : Bool)
        (expd : VlanCheckExpected) (vid : Nat),
      pyDictLookup table vid = none →
      iosxe_check_vlans_one table svi excl expd vid =
        [⟨none, CheckStatus.fail, [], []⟩]) ∧
    (∀ (mm tm : String → String → Bool) (expd : XcvrExpected),
      eos_test_one_interface mm tm expd none =
        [⟨none, CheckStatus.fail, [], []⟩]) := by
  refine ⟨fun _ _ => rfl, ?_, fun _ _ _ => rfl⟩
  intro table svi excl expd vid h
  unfold iosxe_check_vlans_one
  rw [h]
  rfl

/-- C9 witness: a VLAN check for VLAN 1 against an empty measured VLAN
table — the result has measurement None, status FAIL, no field
comparisons. -/
theorem missing_entity_resolves_unmatched_witness :
    iosxe_check_vlans_one [] true true ⟨"default", true, []⟩ 1 =
      [⟨none, CheckStatus.fail, [], []⟩] :=
  missing_entity_resolves_unmatched.2.1 [] true true ⟨"default", true, []⟩ 1 rfl

-- ---------------------------------------------------------------------------
-- C3: handler boundary behaviour (iosxe_check_cabling, iosxe_check_vlans)
-- ---------------------------------------------------------------------------

/-- A Python exception escaping a check executor. -/
inductive PyError where
  | attributeError (msg : String)
  | keyError (msg : String)
deriving DecidableEq, Repr

/-- One LLDP neighbor record (`lldp-neighbor-details` entry). -/
structure LldpNeighbor where
  system_name : String
  port_id : String
deriving DecidableEq, Repr

/-- The expected-results object of a cabling check. -/
structure CablingExpected where
  device : String
  port_id : String
deriving DecidableEq, Repr

/-- The measurement object of a cabling check. -/
structure CablingMeasured where
  device : String
  port_id : String
deriving DecidableEq, Repr

/-- `_check_one_interface` (cabling): compare the LLDP neighbor's system
name and port id with the hostname and interface normalising matcher
functions (external netcad comparators, passed as parameters). -/
def _check_one_interface (hostname_match iface_match : String → String → Bool)
    (expd : CablingExpected) (ifnei_status : LldpNeighbor) :
    CheckResult CablingMeasured :=
  let msrd : CablingMeasured := ⟨ifnei_status.system_name, ifnei_status.port_id⟩
  let on_mismatch := fun f =>
    if f == "device" then
      some (if hostname_match expd.device msrd.device then CheckStatus.pass
            else CheckStatus.fail)
    else if f == "port_id" then
      some (if iface_match expd.port_id msrd.port_id then CheckStatus.pass
            else CheckStatus.fail)
    else some CheckStatus.fail
  let defaults :=
    [("device", expd.device == msrd.device),
     ("port_id", expd.port_id == msrd.port_id)]
  let frs := measureFields on_mismatch defaults
  ⟨some msrd, overallStatus none true frs, frs, []⟩

/-- `iosxe_check_cabling`: per check, the executor evaluates
`dev_lldpnei_ifname.get(if_name).get("lldp-neighbor-details")`; when the
interface name is absent from the LLDP table, `.get(if_name)` is None and
the chained `.get` raises AttributeError out of the executor.  When
present, a falsy neighbor list yields the measurement-None result,
otherwise the first neighbor record is compared.  The table value is the
`lldp-neighbor-details` list ([] covering both an absent key and an empty
list, which Python treats alike here). -/
def iosxe_check_cabling (hostname_match iface_match : String → String → Bool)
    (lldp_table : List (String × List LldpNeighbor))
    (checks : List (String × CablingExpected)) :
    Except PyError (List (CheckResult CablingMeasured)) :=
  match checks with
  | [] => .ok []
  | (if_name, expd) :: rest =>
      match strDictLookup lldp_table if_name with
      | none => .error (.attributeError "NoneType object has no attribute get")
      | some neis =>
          let head_results :=
            match neis with
            | [] => [(⟨none, overallStatus none false [], [], []⟩ :
                      CheckResult CablingMeasured)]
            | n :: _ => [_check_one_interface hostname_match iface_match expd n]
          match iosxe_check_cabling hostname_match iface_match lldp_table rest with
          | .error e => .error e
          | .ok l => .ok (head_results ++ l)

/-- `op_vlan_table.pop(1)` — Python dict pop without a default raises
KeyError when the key is absent. -/
def dict_pop (d : List (Nat × VlanRecord)) (k : Nat) :
    Except PyError (List (Nat × VlanRecord)) :=
  match pyDictLookup d k with
  | some _ => .ok (d.filter (fun p => p.1 != k))
  | none => .error (.keyError (natToStr k))

/-- The prelude of `iosxe_check_vlans`: when the design config disables
`check_vlan1`, VLAN 1 is popped from the measured table (no default). -/
def iosxe_check_vlans_prelude (check_vlan1 : Bool)
    (op_vlan_table : List (Nat × VlanRecord)) :
    Except PyError (List (Nat × VlanRecord)) :=
  if check_vlan1 then .ok op_vlan_table else dict_pop op_vlan_table 1

/-- C3: both named scenarios raise out of their handler, refuting the
never-raises boundary contract the spec states: a cabling check for an
interface absent from the device's LLDP table raises AttributeError
(`None.get(...)`), and the VLAN executor with `check_vlan1` disabled
raises KeyError from `op_vlan_table.pop(1)` when the measured table has
no VLAN 1.  For contrast, a present LLDP entry without neighbors returns
an ok list. -/
theorem check_handlers_raise_on_named_inputs :
    iosxe_check_cabling (fun _ _ => true) (fun _ _ => true) []
        [("GigabitEthernet1/0/1", ⟨"sw2", "Gi1/0/2"⟩)] =
      .error (.attributeError "NoneType object has no attribute get") ∧
    iosxe_check_vlans_prelude false [(10, ⟨"Printers", "active", []⟩)] =
      .error (.keyError "1") ∧
    iosxe_check_cabling (fun _ _ => true) (fun _ _ => true)
        [("GigabitEthernet1/0/1", [])]
        [("GigabitEthernet1/0/1", ⟨"sw2", "Gi1/0/2"⟩)] =
      .ok [⟨none, CheckStatus.fail, [], []⟩] :=
  ⟨rfl, rfl, rfl⟩

-- ---------------------------------------------------------------------------
-- C10: in-place mutation of expected_results (iosxe_check_switchports)
-- ---------------------------------------------------------------------------

/-- The value stored in an expected switchport VLAN slot: either a netcad
`VlanProfile` object (carrying its `vlan_id`) or — after the executor has
rewritten it — a bare integer VLAN id. -/
inductive VlanField where
  | profile (vlan_id : Nat)
  | vid (n : Nat)
deriving DecidableEq, Repr

/-- Python attribute access `x.vlan_id`: succeeds on a `VlanProfile`,
raises AttributeError on a bare int. -/
def VlanField.vlan_id_attr : VlanField → Except PyError Nat
  | .profile v => .ok v
  | .vid _ => .error (.attributeError "int object has no attribute vlan_id")

/-- Python truthiness of the optional `native_vlan` slot: None is falsy,
a `VlanProfile` object is truthy, an int is truthy iff non-zero. -/
def pyTruthyVlanField : Option VlanField → Bool
  | none => false
  | some (.profile _) => true
  | some (.vid n) => n != 0

/-- `set(v.vlan_id for v in ...)`: evaluate `vlan_id` on each element left
to right, raising on the first bare int. -/
def vlan_ids_of : List VlanField → Except PyError (List Nat)
  | [] => .ok []
  | f :: rest =>
      match f.vlan_id_attr with
      | .error e => .error e
      | .ok v =>
          match vlan_ids_of rest with
          | .error e => .error e
          | .ok vs => .ok (v :: vs)

/-- The expected-results object of an access switchport check. -/
structure ExpectAccess where
  switchport_mode : String
  vlan : VlanField
deriving DecidableEq, Repr

/-- The measured `msrd_status` fields for an access switchport. -/
structure AccessStatus where
  interface_mode : String
  access_vlan : Nat
deriving DecidableEq, Repr

/-- The access measurement object. -/
structure MeasuredAccess where
  switchport_mode : String
  vlan : Nat
deriving DecidableEq, Repr

/-- `_check_access_switchport`: rewrites the check's expected `vlan` slot
in place from the VlanProfile to its integer `vlan_id` ("we need to
mutate this value for comparitor reason"), then measures.  Returns the
(mutated) expected object along with the result. -/
def _check_access_switchport (expd : ExpectAccess) (msrd_status : AccessStatus) :
    Except PyError (ExpectAccess × CheckResult MeasuredAccess) :=
  match expd.vlan.vlan_id_attr with
  | .error e => .error e
  | .ok v =>
      let expd2 : ExpectAccess := { expd with vlan := .vid v }
      let msrd : MeasuredAccess :=
        ⟨msrd_status.interface_mode.toLower, msrd_status.access_vlan⟩
      let defaults :=
        [("switchport_mode", expd2.switchport_mode == msrd.switchport_mode),
         ("vlan", v == msrd.vlan)]
      let frs := measureFields (fun _ => none) defaults
      .ok (expd2, ⟨some msrd, overallStatus none true frs, frs, []⟩)

/-- The expected-results object of a trunk switchport check. -/
structure ExpectTrunk where
  switchport_mode : String
  native_vlan : Option VlanField
  trunk_allowed_vlans : List VlanField
deriving DecidableEq, Repr

/-- The measured `msrd_status` fields for a trunk switchport. -/
structure TrunkStatus where
  interface_mode : String
  native_vlan : Option Nat
  trunk_vlans : List Nat
deriving DecidableEq, Repr

/-- The trunk measurement object. -/
structure MeasuredTrunk where
  switchport_mode : String
  native_vlan : Option Nat
  trunk_allowed_vlans : List Nat
deriving DecidableEq, Repr

/-- Python `==` between the expected native-vlan slot (possibly still a
VlanProfile) and the measured optional int. -/
def pyNativeEq : Option VlanField → Option Nat → Bool
  | some (.vid v), some n => v == n
  | none, none => true
  | _, _ => false

/-- Python `==` between the expected trunk-allowed set (ints after the
rewrite) and the measured set of ints. -/
def pyVidSetEq (e : List VlanField) (m : List Nat) : Bool :=
  e.all (fun f =>
    match f with
    | .vid n => m.contains n
    | .profile _ => false) &&
  m.all (fun n => e.contains (.vid n))

/-- The tail of `_check_trunk_switchport` after the expected object has
been rewritten: build the comparison result. -/
def _trunk_measure (e : ExpectTrunk) (msrd : MeasuredTrunk) :
    ExpectTrunk × CheckResult MeasuredTrunk :=
  let defaults :=
    [("switchport_mode", e.switchport_mode == msrd.switchport_mode),
     ("native_vlan", pyNativeEq e.native_vlan msrd.native_vlan),
     ("trunk_allowed_vlans", pyVidSetEq e.trunk_allowed_vlans msrd.trunk_allowed_vlans)]
  let frs := measureFields (fun _ => none) defaults
  (e, ⟨some msrd, overallStatus none true frs, frs, []⟩)

/-- `_check_trunk_switchport`: rewrites the check's expected
`trunk_allowed_vlans` in place to the set of integer vlan_ids, rewrites a
truthy `native_vlan` to its integer vlan_id, then measures.  Returns the
(mutated) expected object along with the result. -/
def _check_trunk_switchport (expd : ExpectTrunk) (msrd_status : TrunkStatus) :
    Except PyError (ExpectTrunk × CheckResult MeasuredTrunk) :=
  let msrd : MeasuredTrunk :=
    ⟨msrd_status.interface_mode.toLower, msrd_status.native_vlan,
      msrd_status.trunk_vlans⟩
  match vlan_ids_of expd.trunk_allowed_vlans with
  | .error e => .error e
  | .ok vids =>
      let expd2 := { expd with trunk_allowed_vlans := vids.map VlanField.vid }
      if pyTruthyVlanField expd2.native_vlan then
        match expd2.native_vlan with
        | some f =>
            match f.vlan_id_attr with
            | .error e => .error e
            | .ok v =>
                .ok (_trunk_measure { expd2 with native_vlan := some (.vid v) } msrd)
        | none => .ok (_trunk_measure expd2 msrd)
      else
        .ok (_trunk_measure expd2 msrd)

theorem vlan_ids_of_profiles (l : List Nat) :
    vlan_ids_of (l.map VlanField.profile) = .ok l := by
  induction l with
  | nil => rfl
  | cons hd tl ih => simp [vlan_ids_of, VlanField.vlan_id_attr, ih]

/-- C10: the switchport comparison mutates the check's expected_results in
place — the access executor replaces the expected VlanProfile by its bare
vlan_id, and the trunk executor replaces `trunk_allowed_vlans` by a set of
integers and a set `native_vlan` by its vlan_id — and a second comparison
over the same (now mutated) expected object does not behave like the
first: it raises AttributeError, because a bare int has no `vlan_id`. -/
theorem switchport_checks_mutate_expected (sw1 sw2 : String) (n m : Nat)
    (l : List Nat) (st1 : AccessStatus) (st2 : TrunkStatus) (hl : l ≠ []) :
    (_check_access_switchport ⟨sw1, .profile n⟩ st1).map Prod.fst =
      .ok ⟨sw1, .vid n⟩ ∧
    _check_access_switchport ⟨sw1, .vid n⟩ st1 =
      .error (.attributeError "int object has no attribute vlan_id") ∧
    (_check_trunk_switchport ⟨sw2, some (.profile m), l.map .profile⟩ st2).map
        Prod.fst =
      .ok ⟨sw2, some (.vid m), l.map .vid⟩ ∧
    _check_trunk_switchport ⟨sw2, some (.vid m), l.map .vid⟩ st2 =
      .error (.attributeError "int object has no attribute vlan_id") := by
  obtain ⟨x, xs, rfl⟩ := List.exists_cons_of_ne_nil hl
  refine ⟨rfl, rfl, ?_, ?_⟩
  · have h := vlan_ids_of_profiles (x :: xs)
    simp only [List.map_cons] at h
    simp [_check_trunk_switchport, h, pyTruthyVlanField,
      VlanField.vlan_id_attr, _trunk_measure, Except.map]
  · simp [_check_trunk_switchport, vlan_ids_of, VlanField.vlan_id_attr]

/-- C10 witness: access port with expected VLAN profile 10; trunk port
with native profile 1 and allowed profiles {10, 20}. -/
theorem switchport_checks_mutate_expected_witness :
    (_check_access_switchport ⟨"access", .profile 10⟩ ⟨"ACCESS", 10⟩).map
        Prod.fst =
      .ok ⟨"access", .vid 10⟩ ∧
    _check_access_switchport ⟨"access", .vid 10⟩ ⟨"ACCESS", 10⟩ =
      .error (.attributeError "int object has no attribute vlan_id") ∧
    (_check_trunk_switchport ⟨"trunk", some (.profile 1), [10, 20].map .profile⟩
        ⟨"TRUNK", some 1, [10, 20]⟩).map Prod.fst =
      .ok ⟨"trunk", some (.vid 1), [10, 20].map .vid⟩ ∧
    _check_trunk_switchport ⟨"trunk", some (.vid 1), [10, 20].map .vid⟩
        ⟨"TRUNK", some 1, [10, 20]⟩ =
      .error (.attributeError "int object has no attribute vlan_id") :=
  switchport_checks_mutate_expected "access" "trunk" 10 1 [10, 20]
    ⟨"ACCESS", 10⟩ ⟨"TRUNK", some 1, [10, 20]⟩ (by decide)

end NetcamIosxe
